import Mathlib

/-!
# Job Lifecycle Coordinator — shallow embedding

A shallow embedding of the job-processor core (tamecalm/job-processor):
the Lifecycle Coordinator (`src/services/jobService.js`), the worker
dispatch loop (`src/jobs/workers/emailWorker.js`), the email processor
(`src/jobs/processors/emailProcessor.js`) and the HTTP boundary
(`src/api/controllers/jobController.js`, `src/api/middlewares/errorHandler.js`).

The Record Store (MongoDB via mongoose) is a list of `Job` records with a
fresh-id counter; the Work Queue (BullMQ) is a list of accepted
`QueueEntry` values.  External effects that can fail (queue
initialisation, `queue.add`, `findByIdAndUpdate` rejections) are passed
in as explicit outcome parameters, and the wall clock (`new Date()`) as
a `now : Nat` argument.
-/

namespace JobProc

/-- A Record Store `Job` document (mongoose model `job.model.js`; shape per
spec §3 and the writes in `jobService.js` / `emailProcessor.js`).
`status` is kept as a raw `String`, as in the source. The opaque `data`
payload is modelled as a string association list. -/
structure Job where
  id : Nat
  name : String
  data : List (String × String)
  status : String
  result : Option String
  createdAt : Nat
  completedAt : Option Nat
  failedAt : Option Nat
deriving Repr, DecidableEq

/-- A Work Queue entry as produced by `queue.add(name, { ...data, id: job._id },
{ jobId: job._id.toString(), ... })`: keyed by `jobId`, carrying the job `name`,
the spread payload `data`, and the `id` field merged into the payload. -/
structure QueueEntry where
  jobId : Nat
  name : String
  payloadData : List (String × String)
  payloadId : Nat
deriving Repr, DecidableEq

/-- Combined state of the two independently failing stores: the Record Store
(`store`, with mongoose's fresh-ObjectId generation modelled by `nextId`) and
the Work Queue's accepted entries (`queue`). -/
structure SysState where
  nextId : Nat
  store : List Job
  queue : List QueueEntry
deriving Repr, DecidableEq

/-- `Job.findById(id)`: first record with the given id, or none. -/
def findById (store : List Job) (id : Nat) : Option Job :=
  store.find? (fun j => j.id == id)

/-- `Job.findByIdAndDelete(id)`: remove the record with the given id
(no-op when absent). -/
def findByIdAndDelete (store : List Job) (id : Nat) : List Job :=
  store.filter (fun j => j.id != id)

/-- `Job.findByIdAndUpdate(id, patch)`: apply the call site's field patch `f`
to the record with the given id (no-op when absent; fields not in the patch
are untouched, which each call site's `f` reflects). -/
def findByIdAndUpdate (store : List Job) (id : Nat) (f : Job → Job) : List Job :=
  store.map (fun j => if j.id == id then f j else j)

/-- `jobService.createJob(name, data)`:
write a fresh `active` Job to the Record Store, then `queue.add` a
`QueueEntry` keyed by the new id (the queue layer holds the bounded
attempts/backoff).  `queueInit = false` models `getJobQueue()`/`createJobQueue()`
yielding no queue; `enqueueErr = some m` models `queue.add` ultimately
rejecting with message `m`, whereupon the catch block deletes the MongoDB
record (compensating delete) and rethrows `Failed to queue job: m`. -/
def createJob (s : SysState) (name : String) (data : List (String × String))
    (queueInit : Bool) (enqueueErr : Option String) (now : Nat) :
    Except String Job × SysState :=
  if !queueInit then
    (.error "Job queue not initialized", s)
  else
    let job : Job :=
      { id := s.nextId, name := name, data := data, status := "active",
        result := none, createdAt := now, completedAt := none, failedAt := none }
    let s1 : SysState := { s with nextId := s.nextId + 1, store := s.store ++ [job] }
    match enqueueErr with
    | none =>
        let entry : QueueEntry :=
          { jobId := job.id, name := name, payloadData := data, payloadId := job.id }
        (.ok job, { s1 with queue := s1.queue ++ [entry] })
    | some m =>
        (.error ("Failed to queue job: " ++ m),
         { s1 with store := findByIdAndDelete s1.store job.id })

/-- The queue entry enqueued for a Job record, as built at both `queue.add`
call sites: `queue.add(name, { ...data, id: job._id }, { jobId: job._id.toString(), ... })`
(in `createJob` the `name`/`data` arguments equal the fresh record's fields;
in `retryJob` they are read from the stored record). -/
def enqueuedEntry (job : Job) : QueueEntry :=
  { jobId := job.id, name := job.name, payloadData := job.data, payloadId := job.id }

/-- The update document of `retryJob`:
`{ status: 'active', result: null, failedAt: null }`. -/
def retryPatch (j : Job) : Job :=
  { j with status := "active", result := none, failedAt := none }

/-- `jobService.retryJob(id)`:
require the Job to exist with `status === 'failed'`; `queue.add` a fresh
entry from the stored `name`/`data`; then `findByIdAndUpdate` the record to
`status: 'active', result: null, failedAt: null`.  `enqueueErr`/`updateErr`
model the respective awaits rejecting (the catch block rethrows, with no
compensation).  Note the function returns `job` — the document fetched
*before* the update. -/
def retryJob (s : SysState) (id : Nat) (queueInit : Bool)
    (enqueueErr updateErr : Option String) : Except String Job × SysState :=
  if !queueInit then
    (.error "Job queue not initialized", s)
  else
    match findById s.store id with
    | none => (.error "Job not found", s)
    | some job =>
      if job.status != "failed" then
        (.error "Job is not in failed state", s)
      else
        match enqueueErr with
        | some m => (.error m, s)
        | none =>
          let s1 : SysState := { s with queue := s.queue ++ [enqueuedEntry job] }
          match updateErr with
          | some m => (.error m, s1)
          | none =>
            let store1 := findByIdAndUpdate s1.store id retryPatch
            (.ok job, { s1 with store := store1 })

/-- `jobService.deleteJob(id)`:
require the Job to exist; best-effort removal of a pending queue entry for
the id (absence, or a queue error, is swallowed); then `findByIdAndDelete`
the record.  Returns the record as fetched before deletion. -/
def deleteJob (s : SysState) (id : Nat) (queueInit : Bool) :
    Except String Job × SysState :=
  if !queueInit then
    (.error "Job queue not initialized", s)
  else
    match findById s.store id with
    | none => (.error "Job not found", s)
    | some job =>
      (.ok job,
       { s with queue := s.queue.filter (fun e => e.jobId != id),
                store := findByIdAndDelete s.store id })

/-- `jobService.getJobById(id)`: throws `Job not found` when `findById`
yields null, else returns the record. -/
def getJobById (store : List Job) (id : Nat) : Except String Job :=
  match findById store id with
  | none => .error "Job not found"
  | some j => .ok j

/-- Outcome of one run of the processor body, as observed by the
`try`/`catch` in `emailProcessor.js`: either the simulated send reaches the
end, or something inside the `try` block throws with a message. -/
inductive ProcOutcome where
  | success
  | failure (msg : String)
deriving Repr, DecidableEq

/-- The success summary string built in `emailProcessor.js`:
`Email sent successfully to ${job.data.recipient} with subject: "${job.data.subject}"`
(a missing key renders as `undefined`, as JS interpolation would). -/
def emailSummary (data : List (String × String)) : String :=
  "Email sent successfully to " ++ ((data.lookup "recipient").getD "undefined")
    ++ " with subject: \"" ++ ((data.lookup "subject").getD "undefined") ++ "\""

/-- The success update document of `emailProcessor`:
`{ status: 'completed', result, completedAt: new Date() }` — it does not
touch `failedAt`. -/
def completionPatch (result : String) (now : Nat) (j : Job) : Job :=
  { j with status := "completed", result := some result, completedAt := some now }

/-- The failure update document of `emailProcessor`:
`{ status: 'failed', result: error.message, failedAt: new Date() }` — it does
not touch `completedAt`. -/
def failurePatch (msg : String) (now : Nat) (j : Job) : Job :=
  { j with status := "failed", result := some msg, failedAt := some now }

/-- `emailProcessor(job)` acting on the Record Store: on success,
`findByIdAndUpdate(job.data.id, { status: 'completed', result, completedAt: new Date() })`
and return the summary; on failure,
`findByIdAndUpdate(job.data.id, { status: 'failed', result: error.message, failedAt: new Date() })`
and rethrow. -/
def emailProcessor (store : List Job) (e : QueueEntry) (outcome : ProcOutcome)
    (now : Nat) : Except String String × List Job :=
  match outcome with
  | .success =>
      let result := emailSummary e.payloadData
      (.ok result, findByIdAndUpdate store e.payloadId (completionPatch result now))
  | .failure msg =>
      (.error msg, findByIdAndUpdate store e.payloadId (failurePatch msg now))

/-- One worker iteration on a delivered entry (`emailWorker.js`): dispatch on
`job.name`; `sendEmail` runs `emailProcessor`; any other name throws
`Unknown job type: ${job.name}` without touching the Record Store.
The failure/error is propagated to the queue layer (BullMQ retry/backoff);
the accepted-entry list itself is not mutated here, so an unacknowledged or
retryable entry may be delivered again (at-least-once delivery,
`attempts: 3` with exponential backoff in `queue.js`). -/
def workerStep (s : SysState) (e : QueueEntry) (outcome : ProcOutcome)
    (now : Nat) : Except String String × SysState :=
  if e.name == "sendEmail" then
    let r := emailProcessor s.store e outcome now
    (r.1, { s with store := r.2 })
  else
    (.error ("Unknown job type: " ++ e.name), s)

/-- `errorHandler.js`: `const statusCode = err.statusCode || 500`.  Errors
thrown by `jobService` are plain `Error`s carrying no `statusCode`. -/
def errorHandlerStatus (statusCode : Option Nat) : Nat :=
  statusCode.getD 500

/-- `GET /jobs/:id` as wired in `jobController.getJobById`: call the service;
on a returned job respond `res.json(job)` (HTTP 200; the controller's
`if (!job) return res.status(404)` guard is only reachable on a null return,
and the service throws instead of returning null); on a thrown error,
`next(error)` hands a plain `Error` (no `statusCode`) to `errorHandler`. -/
def getJobRoute (store : List Job) (id : Nat) : Nat × Option Job :=
  match getJobById store id with
  | .ok j => (200, some j)
  | .error _ => (errorHandlerStatus none, none)

/-- The empty system: no records, no accepted entries. -/
def initState : SysState := { nextId := 0, store := [], queue := [] }

/-- One observable transition of the system: a Coordinator call
(`createJob`/`retryJob`/`deleteJob`) with any injected external outcomes, or
one worker iteration on a currently accepted queue entry (at-least-once
delivery allows re-delivery of an entry, e.g. BullMQ's automatic retry of a
failed attempt under `attempts: 3`). -/
inductive Step : SysState → SysState → Prop where
  | create (s : SysState) (name : String) (data : List (String × String))
      (qi : Bool) (err : Option String) (now : Nat) :
      Step s (createJob s name data qi err now).2
  | retry (s : SysState) (id : Nat) (qi : Bool) (eerr uerr : Option String) :
      Step s (retryJob s id qi eerr uerr).2
  | del (s : SysState) (id : Nat) (qi : Bool) :
      Step s (deleteJob s id qi).2
  | work (s : SysState) (e : QueueEntry) (outcome : ProcOutcome) (now : Nat) :
      e ∈ s.queue → Step s (workerStep s e outcome now).2

/-- States reachable from the empty system by Coordinator calls and worker
iterations. -/
inductive Reachable : SysState → Prop where
  | init : Reachable initState
  | step {s s' : SysState} : Reachable s → Step s s' → Reachable s'

/-! ## Record Store lemmas -/

/-- Deleting a freshly appended record (whose id occurs nowhere else in the
store) restores the original store. -/
theorem findByIdAndDelete_append_fresh (store : List Job) (job : Job)
    (hfresh : ∀ j ∈ store, j.id ≠ job.id) :
    findByIdAndDelete (store ++ [job]) job.id = store := by
  unfold findByIdAndDelete
  rw [List.filter_append]
  have h1 : List.filter (fun j => j.id != job.id) store = store :=
    List.filter_eq_self.mpr (fun j hj => by simp [bne_iff_ne, hfresh j hj])
  have h2 : List.filter (fun j => j.id != job.id) [job] = [] := by simp
  rw [h1, h2, List.append_nil]

/-- Looking up the patched id after a `findByIdAndUpdate` yields the patched
record, provided the patch does not change ids. -/
theorem findById_update_self (store : List Job) (id : Nat) (f : Job → Job)
    (hid : ∀ j, (f j).id = j.id) :
    findById (findByIdAndUpdate store id f) id = (findById store id).map f := by
  induction store with
  | nil => rfl
  | cons j rest ih =>
    by_cases h : j.id = id
    · simp [findById, findByIdAndUpdate, List.find?_cons, h, hid]
    · simpa [findById, findByIdAndUpdate, List.find?_cons, h, hid] using ih

/-- Looking up any other id after a `findByIdAndUpdate` is unaffected,
provided the patch does not change ids. -/
theorem findById_update_ne (store : List Job) (id id' : Nat) (f : Job → Job)
    (hid : ∀ j, (f j).id = j.id) (hne : id' ≠ id) :
    findById (findByIdAndUpdate store id f) id' = findById store id' := by
  induction store with
  | nil => rfl
  | cons j rest ih =>
    by_cases h : j.id = id
    · have : (f j).id ≠ id' := by rw [hid j, h]; exact fun hc => hne hc.symm
      simp [findById, findByIdAndUpdate, List.find?_cons, h, this, Ne.symm hne] at ih ⊢
      exact ih
    · by_cases h' : j.id = id'
      · simp [findById, findByIdAndUpdate, List.find?_cons, h, h', hne]
      · simp [findById, findByIdAndUpdate, List.find?_cons, h, h'] at ih ⊢
        exact ih

/-! ## C1 — Create's dual-write guarantee -/

/-- C1: If Create's enqueue step ultimately fails, the Coordinator deletes the
Job record it wrote and reports a queuing failure; and for every Create call,
either a Job exists in the post-state with a matching accepted QueueEntry, or
neither the Job nor the QueueEntry exists (stores unchanged). -/
theorem create_dual_write (s : SysState) (name : String)
    (data : List (String × String)) (now : Nat) (m : String)
    (hfresh : ∀ j ∈ s.store, j.id ≠ s.nextId) :
    ((createJob s name data true (some m) now).1 =
        Except.error ("Failed to queue job: " ++ m) ∧
     (createJob s name data true (some m) now).2.store = s.store ∧
     (createJob s name data true (some m) now).2.queue = s.queue) ∧
    (∀ (qi : Bool) (err : Option String),
      (∃ jb : Job, (createJob s name data qi err now).1 = Except.ok jb ∧
        jb ∈ (createJob s name data qi err now).2.store ∧
        ∃ e ∈ (createJob s name data qi err now).2.queue,
          e.jobId = jb.id ∧ e.name = jb.name ∧ e.payloadData = jb.data) ∨
      ((createJob s name data qi err now).1.isOk = false ∧
        (createJob s name data qi err now).2.store = s.store ∧
        (createJob s name data qi err now).2.queue = s.queue)) := by
  constructor
  · refine ⟨rfl, ?_, rfl⟩
    exact findByIdAndDelete_append_fresh s.store _ hfresh
  · intro qi err
    cases qi with
    | false => exact Or.inr ⟨rfl, rfl, rfl⟩
    | true =>
      cases err with
      | none =>
        refine Or.inl ⟨_, rfl, ?_,
          ⟨{ jobId := s.nextId, name := name, payloadData := data, payloadId := s.nextId },
            ?_, rfl, rfl, rfl⟩⟩
        · simp [createJob]
        · simp [createJob]
      | some m' =>
        refine Or.inr ⟨rfl, ?_, rfl⟩
        exact findByIdAndDelete_append_fresh s.store _ hfresh

/-- Witness for C1 at a concrete state: the empty system, enqueue rejecting
with message `x`. -/
theorem create_dual_write_witness :
    (∀ j ∈ initState.store, j.id ≠ initState.nextId) ∧
    (createJob initState "sendEmail" [] true (some "x") 0).2.store = initState.store :=
  ⟨by simp [initState],
   (create_dual_write initState "sendEmail" [] 0 "x" (by simp [initState])).1.2.1⟩

/-! ## C2 — state machine closure over reachable states -/

/-- The spec's status alphabet: one of `active`, `completed`, `failed`. -/
def StatusOk (j : Job) : Prop :=
  j.status = "active" ∨ j.status = "completed" ∨ j.status = "failed"

/-- A record of an updated store is either an untouched original record or
the patch applied to an original record. -/
theorem mem_update_cases (store : List Job) (id : Nat) (f : Job → Job) (j' : Job)
    (hj' : j' ∈ findByIdAndUpdate store id f) :
    j' ∈ store ∨ ∃ j ∈ store, j' = f j := by
  unfold findByIdAndUpdate at hj'
  obtain ⟨j, hj, he⟩ := List.mem_map.mp hj'
  by_cases h : (j.id == id) = true
  · exact Or.inr ⟨j, hj, by rw [← he]; simp [h]⟩
  · refine Or.inl ?_
    rw [← he]
    simpa [h] using hj

/-- Create writes only `active` records. -/
theorem createJob_statusOk (s : SysState) (name : String)
    (data : List (String × String)) (qi : Bool) (err : Option String) (now : Nat)
    (ih : ∀ j ∈ s.store, StatusOk j) :
    ∀ j ∈ (createJob s name data qi err now).2.store, StatusOk j := by
  intro j hj
  cases qi with
  | false => exact ih j hj
  | true =>
    cases err with
    | none =>
      simp [createJob] at hj
      rcases hj with h | h
      · exact ih j h
      · rw [h]; exact Or.inl rfl
    | some m =>
      simp [createJob, findByIdAndDelete] at hj
      exact ih j hj.1

/-- The post-store of Retry is the original store or the `active` patch. -/
theorem retryJob_store_cases (s : SysState) (id : Nat) (qi : Bool)
    (eerr uerr : Option String) :
    (retryJob s id qi eerr uerr).2.store = s.store ∨
    (retryJob s id qi eerr uerr).2.store = findByIdAndUpdate s.store id retryPatch := by
  unfold retryJob
  split
  · exact Or.inl rfl
  · split
    · exact Or.inl rfl
    · split
      · exact Or.inl rfl
      · split
        · exact Or.inl rfl
        · split
          · exact Or.inl rfl
          · exact Or.inr rfl

/-- Retry writes only `active` records. -/
theorem retryJob_statusOk (s : SysState) (id : Nat) (qi : Bool)
    (eerr uerr : Option String) (ih : ∀ j ∈ s.store, StatusOk j) :
    ∀ j ∈ (retryJob s id qi eerr uerr).2.store, StatusOk j := by
  intro j hj
  rcases retryJob_store_cases s id qi eerr uerr with h | h
  · exact ih j (h ▸ hj)
  · rcases mem_update_cases _ _ _ j (h ▸ hj) with hmem | ⟨j0, _, rfl⟩
    · exact ih j hmem
    · exact Or.inl rfl

/-- The post-store of Delete is the original store or the deletion. -/
theorem deleteJob_store_cases (s : SysState) (id : Nat) (qi : Bool) :
    (deleteJob s id qi).2.store = s.store ∨
    (deleteJob s id qi).2.store = findByIdAndDelete s.store id := by
  unfold deleteJob
  split
  · exact Or.inl rfl
  · split
    · exact Or.inl rfl
    · exact Or.inr rfl

/-- Delete only removes records. -/
theorem deleteJob_statusOk (s : SysState) (id : Nat) (qi : Bool)
    (ih : ∀ j ∈ s.store, StatusOk j) :
    ∀ j ∈ (deleteJob s id qi).2.store, StatusOk j := by
  intro j hj
  rcases deleteJob_store_cases s id qi with h | h
  · exact ih j (h ▸ hj)
  · exact ih j (List.mem_of_mem_filter (h ▸ hj))

/-- A worker iteration writes only `completed` or `failed` records. -/
theorem workerStep_statusOk (s : SysState) (e : QueueEntry)
    (outcome : ProcOutcome) (now : Nat) (ih : ∀ j ∈ s.store, StatusOk j) :
    ∀ j ∈ (workerStep s e outcome now).2.store, StatusOk j := by
  intro j hj
  revert hj
  unfold workerStep
  split
  · intro hj
    cases outcome with
    | success =>
      rcases mem_update_cases _ _ _ j (by simpa [emailProcessor] using hj)
        with hmem | ⟨j0, _, rfl⟩
      · exact ih j hmem
      · exact Or.inr (Or.inl rfl)
    | failure msg =>
      rcases mem_update_cases _ _ _ j (by simpa [emailProcessor] using hj)
        with hmem | ⟨j0, _, rfl⟩
      · exact ih j hmem
      · exact Or.inr (Or.inr rfl)
  · exact fun hj => ih j hj

/-- C2 (amended): for every reachable state, every Job record's status is one
of `active`, `completed`, `failed`.  (The mutual-exclusion half of the claim
fails; see the counterexample.) -/
theorem job_statuses_closed (s : SysState) (hs : Reachable s) :
    ∀ j ∈ s.store, StatusOk j := by
  induction hs with
  | init => intro j hj; exact absurd hj (by simp [initState])
  | step _ hstep ih =>
    cases hstep with
    | create name data qi err now => exact createJob_statusOk _ name data qi err now ih
    | retry id qi eerr uerr => exact retryJob_statusOk _ id qi eerr uerr ih
    | del id qi => exact deleteJob_statusOk _ id qi ih
    | work e outcome now _ => exact workerStep_statusOk _ e outcome now ih

/-- Concrete `sendEmail` payload. -/
def sampleData : List (String × String) := [("recipient", "a@b.com"), ("subject", "Hi")]

/-- State after a successful `Create("sendEmail", sampleData)` on the empty
system: record 0 is `active` and entry 0 is accepted. -/
def createdState : SysState := (createJob initState "sendEmail" sampleData true none 0).2

/-- The accepted queue entry of `createdState`. -/
def createdEntry : QueueEntry :=
  { jobId := 0, name := "sendEmail", payloadData := sampleData, payloadId := 0 }

/-- The record written by the Create above. -/
def createdJob : Job :=
  { id := 0, name := "sendEmail", data := sampleData, status := "active",
    result := none, createdAt := 0, completedAt := none, failedAt := none }

/-- `createdState` then one worker iteration whose processor throws:
record 0 becomes `failed` with `failedAt = 1`. -/
def failedOnceState : SysState :=
  (workerStep createdState createdEntry (.failure "SMTP connection refused") 1).2

/-- `failedOnceState` then an automatic queue re-delivery of the same entry
whose processor now succeeds: record 0 becomes `completed`. -/
def redeliveredState : SysState :=
  (workerStep failedOnceState createdEntry .success 2).2

theorem reachable_createdState : Reachable createdState :=
  Reachable.step Reachable.init (Step.create initState "sendEmail" sampleData true none 0)

theorem reachable_failedOnceState : Reachable failedOnceState :=
  Reachable.step reachable_createdState
    (Step.work createdState createdEntry (.failure "SMTP connection refused") 1 (by decide))

theorem reachable_redeliveredState : Reachable redeliveredState :=
  Reachable.step reachable_failedOnceState
    (Step.work failedOnceState createdEntry .success 2 (by decide))

/-- C2 counterexample: a reachable state (create, processor failure, queue
re-delivery, processor success) holding a record with `completedAt` and
`failedAt` both set — the completion patch does not clear `failedAt`. -/
theorem state_closure_cex :
    Reachable redeliveredState ∧
    redeliveredState.store.any (fun j => j.completedAt.isSome && j.failedAt.isSome) = true :=
  ⟨reachable_redeliveredState, by decide⟩

/-- Witness for C2's amended theorem at the concrete created state. -/
theorem job_statuses_closed_witness :
    Reachable createdState ∧ StatusOk createdJob :=
  ⟨reachable_createdState,
   job_statuses_closed createdState reachable_createdState createdJob (by decide)⟩

/-! ## C3 — Retry precondition -/

/-- C3: Retry on an existing Job whose status is `active` or `completed`
fails with the state-conflict error and leaves the entire system state
unchanged — no record field is mutated and no entry is enqueued —
regardless of how the enqueue or update steps would have behaved. -/
theorem retry_state_conflict (s : SysState) (id : Nat) (job : Job)
    (hfind : findById s.store id = some job)
    (hst : job.status = "active" ∨ job.status = "completed")
    (eerr uerr : Option String) :
    retryJob s id true eerr uerr = (Except.error "Job is not in failed state", s) := by
  have hne : (job.status != "failed") = true := by
    rcases hst with h | h <;> simp [h]
  simp [retryJob, hfind, hne]

/-- Witness for C3 at the concrete post-Create state (record 0 `active`). -/
theorem retry_state_conflict_witness :
    (findById createdState.store 0 = some createdJob ∧ createdJob.status = "active") ∧
    retryJob createdState 0 true none none =
      (Except.error "Job is not in failed state", createdState) :=
  ⟨⟨by decide, rfl⟩,
   retry_state_conflict createdState 0 createdJob (by decide) (Or.inl rfl) none none⟩

/-! ## C4 — Retry on a failed Job -/

/-- The record of `failedOnceState`: `failed`, with the processor's error as
`result` and `failedAt` set. -/
def failedJob : Job :=
  { id := 0, name := "sendEmail", data := sampleData, status := "failed",
    result := some "SMTP connection refused", createdAt := 0,
    completedAt := none, failedAt := some 1 }

/-- C4 counterexample: on the reachable failed state, Retry succeeds but the
value returned to the caller is the record as fetched *before* the update —
status still `failed`, `result` and `failedAt` still populated — not the
claimed `active`/`null`/`null` view. -/
theorem retry_returns_stale_cex :
    Reachable failedOnceState ∧
    (retryJob failedOnceState 0 true none none).1 = Except.ok failedJob ∧
    failedJob.status = "failed" ∧
    failedJob.result = some "SMTP connection refused" ∧
    failedJob.failedAt = some 1 :=
  ⟨reachable_failedOnceState, rfl, rfl, rfl, rfl⟩

/-- C4 (amended): Retry on an existing `failed` Job enqueues a fresh entry
carrying the stored `name`/`payload`, and transitions the stored record to
`active` with `result` and `failedAt` cleared; the value returned to the
caller, however, is the record as fetched before the update. -/
theorem retry_success_transition (s : SysState) (id : Nat) (job : Job)
    (hfind : findById s.store id = some job) (hst : job.status = "failed") :
    (retryJob s id true none none).1 = Except.ok job ∧
    (retryJob s id true none none).2.queue = s.queue ++ [enqueuedEntry job] ∧
    findById (retryJob s id true none none).2.store id = some (retryPatch job) := by
  have hb : (job.status != "failed") = false := by simp [hst]
  have hupd := findById_update_self s.store id retryPatch (fun j => rfl)
  refine ⟨?_, ?_, ?_⟩
  · simp [retryJob, hfind, hb]
  · simp [retryJob, hfind, hb]
  · simp [retryJob, hfind, hb, hupd]

/-- Witness for C4's amended theorem at the concrete reachable failed state. -/
theorem retry_success_transition_witness :
    (findById failedOnceState.store 0 = some failedJob ∧ failedJob.status = "failed") ∧
    findById (retryJob failedOnceState 0 true none none).2.store 0 =
      some (retryPatch failedJob) :=
  ⟨⟨by decide, rfl⟩,
   (retry_success_transition failedOnceState 0 failedJob (by decide) rfl).2.2⟩

/-! ## C5 — unknown job type -/

/-- State after a successful Create of a job whose `name` has no registered
processor (`resizeImage`): record 0 is `active`, entry 0 accepted. -/
def unknownTypeState : SysState := (createJob initState "resizeImage" [] true none 0).2

/-- The accepted queue entry of `unknownTypeState`. -/
def unknownTypeEntry : QueueEntry :=
  { jobId := 0, name := "resizeImage", payloadData := [], payloadId := 0 }

/-- The record written by the Create above. -/
def unknownTypeJob : Job :=
  { id := 0, name := "resizeImage", data := [], status := "active",
    result := none, createdAt := 0, completedAt := none, failedAt := none }

theorem reachable_unknownTypeState : Reachable unknownTypeState :=
  Reachable.step Reachable.init (Step.create initState "resizeImage" [] true none 0)

/-- C5 counterexample: a worker iteration on a dequeued entry with no
registered processor throws `Unknown job type`, but the Record Store record is
not transitioned: the state is untouched and record 0 stays `active` with no
result — contrary to the claimed `active → failed` write. -/
theorem unknown_type_cex :
    Reachable unknownTypeState ∧
    unknownTypeEntry ∈ unknownTypeState.queue ∧
    (workerStep unknownTypeState unknownTypeEntry .success 1).1 =
      Except.error "Unknown job type: resizeImage" ∧
    (workerStep unknownTypeState unknownTypeEntry .success 1).2 = unknownTypeState ∧
    findById unknownTypeState.store 0 = some unknownTypeJob ∧
    unknownTypeJob.status = "active" ∧ unknownTypeJob.result = none ∧
    unknownTypeJob.failedAt = none :=
  ⟨reachable_unknownTypeState, by decide, rfl, by decide, by decide, rfl, rfl, rfl⟩

/-- C5 (amended): on a dequeued entry whose `name` has no registered
processor, the worker rejects the entry with an `Unknown job type` error
(propagated to the queue layer), and the Record Store is left completely
untouched — the corresponding Job record is not transitioned to `failed`. -/
theorem unknown_type_no_write (s : SysState) (e : QueueEntry)
    (outcome : ProcOutcome) (now : Nat) (h : e.name ≠ "sendEmail") :
    workerStep s e outcome now = (Except.error ("Unknown job type: " ++ e.name), s) := by
  simp [workerStep, h]

/-- Witness for C5's amended theorem at the concrete unknown-type state. -/
theorem unknown_type_no_write_witness :
    unknownTypeEntry.name ≠ "sendEmail" ∧
    workerStep unknownTypeState unknownTypeEntry ProcOutcome.success 1 =
      (Except.error ("Unknown job type: " ++ unknownTypeEntry.name), unknownTypeState) :=
  ⟨by decide, unknown_type_no_write unknownTypeState unknownTypeEntry .success 1 (by decide)⟩

/-! ## C6 — terminal writes under re-application -/

/-- Re-applying an id-preserving patch that a second patch absorbs collapses
to the second patch alone. -/
theorem update_update_absorb (store : List Job) (id : Nat) (f g : Job → Job)
    (hid : ∀ j, (f j).id = j.id) (habs : ∀ j, g (f j) = g j) :
    findByIdAndUpdate (findByIdAndUpdate store id f) id g =
      findByIdAndUpdate store id g := by
  induction store with
  | nil => rfl
  | cons j rest ih =>
    by_cases h : j.id = id
    · simp [findByIdAndUpdate, h, hid, habs] at ih ⊢
      exact ih
    · simp [findByIdAndUpdate, h] at ih ⊢
      exact ih

/-- C6 (amended): applying the same terminal outcome twice is absorbed into a
single application performed at the second write's clock time — status and
result agree with a single write and the other timestamp field is untouched,
but the terminal timestamp is overwritten with the later write's time, so the
double application equals one write at the *second* time, not the first. -/
theorem terminal_write_absorb (store : List Job) (e : QueueEntry)
    (o : ProcOutcome) (t1 t2 : Nat) :
    (emailProcessor (emailProcessor store e o t1).2 e o t2).2 =
      (emailProcessor store e o t2).2 := by
  cases o with
  | success =>
      exact update_update_absorb store e.payloadId _ _ (fun j => rfl) (fun j => rfl)
  | failure msg =>
      exact update_update_absorb store e.payloadId _ _ (fun j => rfl) (fun j => rfl)

/-- C6 counterexample: applying the same completion outcome twice (clock times
0 then 1) does not leave the record in the same state as applying it once at
time 0 — `completedAt` is overwritten with the later time. -/
theorem terminal_write_twice_cex :
    (emailProcessor (emailProcessor createdState.store createdEntry .success 0).2
        createdEntry .success 1).2 ≠
      (emailProcessor createdState.store createdEntry .success 0).2 ∧
    (findById (emailProcessor (emailProcessor createdState.store createdEntry .success 0).2
        createdEntry .success 1).2 0).map (fun j => j.completedAt) = some (some 1) ∧
    (findById (emailProcessor createdState.store createdEntry .success 0).2 0).map
      (fun j => j.completedAt) = some (some 0) :=
  ⟨by decide, by decide, by decide⟩

/-! ## C7 — GET /jobs/:id on a missing id -/

/-- C7 evaluation: for an id with no record, the route answers HTTP 500 (the
service throws a plain `Error` with no `statusCode`, so `errorHandler`
defaults to 500; the controller's 404 branch is unreachable), while an id
with a record answers 200 with that record. -/
theorem get_route_behavior :
    getJobRoute [] 7 = (500, none) ∧
    getJobRoute [createdJob] 0 = (200, some createdJob) :=
  ⟨rfl, rfl⟩

/-! ## C8 — worker success writes completion -/

/-- C8: a worker iteration on a `sendEmail` entry whose processor succeeds
returns the processor's summary and updates the corresponding record to
`completed` with `result` set to the summary and `completedAt` set to the
write time. -/
theorem worker_success_completes (s : SysState) (e : QueueEntry) (now : Nat)
    (job : Job) (hname : e.name = "sendEmail")
    (hfind : findById s.store e.payloadId = some job) :
    (workerStep s e .success now).1 = Except.ok (emailSummary e.payloadData) ∧
    findById (workerStep s e .success now).2.store e.payloadId =
      some (completionPatch (emailSummary e.payloadData) now job) := by
  have hupd := findById_update_self s.store e.payloadId
    (completionPatch (emailSummary e.payloadData) now) (fun j => rfl)
  constructor
  · simp [workerStep, hname, emailProcessor]
  · simp [workerStep, hname, emailProcessor, hupd, hfind]

/-- Witness for C8 at the concrete created state. -/
theorem worker_success_completes_witness :
    (createdEntry.name = "sendEmail" ∧
     findById createdState.store createdEntry.payloadId = some createdJob) ∧
    findById (workerStep createdState createdEntry ProcOutcome.success 3).2.store
        createdEntry.payloadId =
      some (completionPatch (emailSummary createdEntry.payloadData) 3 createdJob) :=
  ⟨⟨rfl, by decide⟩,
   (worker_success_completes createdState createdEntry 3 createdJob rfl (by decide)).2⟩

/-! ## C9 — Retry's enqueue-then-update order -/

/-- C9: Retry enqueues before touching the Record Store.  If the enqueue
itself fails, Retry reports the failure and the whole state — in particular
the `failed` record with its `result` and `failedAt` — is unchanged.  If the
record update fails after a successful enqueue, the error is reported but the
fresh QueueEntry stays in the queue (no compensating delete) and the store is
unchanged. -/
theorem retry_enqueue_order (s : SysState) (id : Nat) (job : Job) (m : String)
    (hfind : findById s.store id = some job) (hst : job.status = "failed") :
    retryJob s id true (some m) none = (Except.error m, s) ∧
    retryJob s id true none (some m) =
      (Except.error m, { s with queue := s.queue ++ [enqueuedEntry job] }) := by
  have hb : (job.status != "failed") = false := by simp [hst]
  constructor <;> simp [retryJob, hfind, hb]

/-- Witness for C9 at the concrete reachable failed state. -/
theorem retry_enqueue_order_witness :
    (findById failedOnceState.store 0 = some failedJob ∧ failedJob.status = "failed") ∧
    retryJob failedOnceState 0 true (some "redis down") none =
      (Except.error "redis down", failedOnceState) :=
  ⟨⟨by decide, rfl⟩,
   (retry_enqueue_order failedOnceState 0 failedJob "redis down" (by decide) rfl).1⟩

/-! ## C10 — entries keyed by the record id, worker writes back to it -/

/-- C10: every entry enqueued by Create or Retry carries `jobId` equal to the
Job record's id and a payload `id` equal to the same record id, and a worker
iteration writes only to the record named by the entry's payload id (lookups
at every other id are unchanged). -/
theorem queue_entry_id_consistency (s : SysState) (name : String)
    (data : List (String × String)) (now : Nat) (id : Nat) (job : Job)
    (hfind : findById s.store id = some job) (hst : job.status = "failed") :
    (∃ jb : Job, (createJob s name data true none now).1 = Except.ok jb ∧
      (createJob s name data true none now).2.queue = s.queue ++ [enqueuedEntry jb]) ∧
    (retryJob s id true none none).2.queue = s.queue ++ [enqueuedEntry job] ∧
    (enqueuedEntry job).jobId = job.id ∧ (enqueuedEntry job).payloadId = job.id ∧
    (∀ (e : QueueEntry) (o : ProcOutcome) (t id' : Nat), id' ≠ e.payloadId →
      findById (workerStep s e o t).2.store id' = findById s.store id') := by
  have hb : (job.status != "failed") = false := by simp [hst]
  refine ⟨⟨_, rfl, by simp [createJob, enqueuedEntry]⟩, ?_, rfl, rfl, ?_⟩
  · simp [retryJob, hfind, hb]
  · intro e o t id' hne
    by_cases h : (e.name == "sendEmail") = true
    · cases o with
      | success =>
          simp only [workerStep, h, if_pos, emailProcessor]
          exact findById_update_ne s.store e.payloadId id' _ (fun j => rfl) hne
      | failure msg =>
          simp only [workerStep, h, if_pos, emailProcessor]
          exact findById_update_ne s.store e.payloadId id' _ (fun j => rfl) hne
    · simp [workerStep, h]

/-- Witness for C10 at the concrete reachable failed state. -/
theorem queue_entry_id_consistency_witness :
    (findById failedOnceState.store 0 = some failedJob ∧ failedJob.status = "failed") ∧
    (retryJob failedOnceState 0 true none none).2.queue =
      failedOnceState.queue ++ [enqueuedEntry failedJob] :=
  ⟨⟨by decide, rfl⟩,
   (queue_entry_id_consistency failedOnceState "sendEmail" sampleData 9 0 failedJob
     (by decide) rfl).2.1⟩

end JobProc
